import Mathlib

/-!
Verification of the daft-launcher cluster tool.

This file gives a shallow embedding of the configuration-resolution,
topology-resolution, tunnel and job-submission logic of the repository,
and proves properties of it.  Every definition is translated from a
concrete source function; the doc comment of each definition names the
Python function it embeds.
-/

/-- Error values raised via click.UsageError in the source.  Each
constructor corresponds to one distinct raise site / message. -/
inductive UsageErr where
  /-- `build_ray_config_from_path`: mismatch between launcher version and
  config file version. -/
  | versionMismatch (launcherVersion tomlVersion : String)
  /-- `helpers._get_ip`: could not find the public ip of the head node. -/
  | couldNotFindHeadIp (name : String)
  /-- `__init__.find_ip`: the IP of the cluster with this name was not found. -/
  | ipNotFound (name : String)
  /-- `__init__.get_ip`: the cluster is not running. -/
  | clusterNotRunning (name : String)
  /-- `__init__.get_ip`: the cluster does not have a public IP address available. -/
  | noPublicIp (name : String)
  /-- `helpers._run_aws_command`: AWS token has expired. -/
  | credentialsExpired
  /-- `helpers._run_aws_command`: empty response string. -/
  | emptyResponse
  /-- `helpers._run_aws_command`: failed to parse AWS command output. -/
  | malformedResponse (stdout : String)
deriving DecidableEq, Repr

/-- The provider enum of `Setup.provider` (`Literal["aws"]`). -/
inductive Provider where
  | aws
deriving DecidableEq, Repr

/-- `data_definitions.Setup` (pydantic model). -/
structure Setup where
  name : String
  provider : Provider
  python_version : String
  ray_version : String
  number_of_workers : Nat
  dependencies : List Int
deriving DecidableEq, Repr

/-- `data_definitions.Run` (pydantic model). -/
structure Run where
  pre_setup_commands : List String
  setup_commands : List String
deriving DecidableEq, Repr

/-- `data_definitions.AwsConfiguration`, flattening its base class
`CustomConfiguration` (the only provider is aws, and
`_construct_config_from_raw_dict` only ever builds `AwsConfiguration`). -/
structure AwsConfiguration where
  daft_launcher_version : String
  setup : Setup
  run : Run
  region : String
  ssh_user : String
  instance_type : String
  image_id : String
  iam_instance_profile_arn : Option String
deriving DecidableEq, Repr

/-- The `node_config` sub-dict of a node type in the ray config dict. -/
structure NodeConfig where
  InstanceType : String
  ImageId : String
deriving DecidableEq, Repr

/-- The `provider` sub-dict of the ray config dict. -/
structure RayProvider where
  type : String
  region : String
  cache_stopped_nodes : Bool
deriving DecidableEq, Repr

/-- The `auth` sub-dict of the ray config dict. -/
structure RayAuth where
  ssh_user : String
deriving DecidableEq, Repr

/-- The `available_node_types."ray.head.default"` sub-dict (its
`resources` field is the constant empty dict). -/
structure HeadNodeType where
  node_config : NodeConfig
deriving DecidableEq, Repr

/-- The `available_node_types."ray.worker.default"` sub-dict (its
`resources` field is the constant empty dict). -/
structure WorkerNodeType where
  node_config : NodeConfig
  min_workers : Nat
  max_workers : Nat
deriving DecidableEq, Repr

/-- The launch manifest dict returned by `data_definitions._build_ray_config`,
with the fixed keys of that dict literal as fields. -/
structure RayConfiguration where
  cluster_name : String
  provider : RayProvider
  auth : RayAuth
  max_workers : Nat
  head_node : HeadNodeType
  worker_node : WorkerNodeType
  setup_commands : List String
deriving DecidableEq, Repr

/-- `data_definitions._generate_setup_commands`: the generated installer
command sequence, derived from the pinned python and ray versions. -/
def generate_setup_commands (config : AwsConfiguration) : List String :=
  [ "curl -LsSf https://astral.sh/uv/install.sh | sh",
    "uv python install " ++ config.setup.python_version,
    "uv python pin " ++ config.setup.python_version,
    "uv venv",
    "echo \x22alias pip=\x27uv pip\x27\x22 >> $HOME/.bashrc",
    "echo \x22source $HOME/.venv/bin/activate\x22 >> $HOME/.bashrc",
    "source $HOME/.bashrc",
    "uv pip install \x22ray[default]==" ++ config.setup.ray_version
      ++ "\x22 \x22getdaft\x22 \x22deltalake\x22" ]

/-- `data_definitions._build_ray_config`: pure construction of the launch
manifest from a validated configuration. -/
def build_ray_config (c : AwsConfiguration) : RayConfiguration :=
  { cluster_name := c.setup.name
    provider := { type := "aws", region := c.region, cache_stopped_nodes := false }
    auth := { ssh_user := c.ssh_user }
    max_workers := c.setup.number_of_workers
    head_node :=
      { node_config := { InstanceType := c.instance_type, ImageId := c.image_id } }
    worker_node :=
      { node_config := { InstanceType := c.instance_type, ImageId := c.image_id }
        min_workers := c.setup.number_of_workers
        max_workers := c.setup.number_of_workers }
    setup_commands :=
      c.run.pre_setup_commands ++ generate_setup_commands c ++ c.run.setup_commands }

/-- `data_definitions.build_ray_config_from_path`, starting after the parse
step: the running tool version (`helpers.daft_launcher_version()`) is a
parameter; the version gate fires before `_build_ray_config` is invoked. -/
def build_ray_config_from_path (launcherVersion : String)
    (custom_config : AwsConfiguration) :
    Except UsageErr (AwsConfiguration × RayConfiguration) :=
  let toml_version := custom_config.daft_launcher_version
  if toml_version ≠ launcherVersion then
    Except.error (UsageErr.versionMismatch launcherVersion toml_version)
  else
    Except.ok (custom_config, build_ray_config custom_config)

/-- A sample validated configuration, used to instantiate theorems with
hypotheses at concrete inputs. -/
def sampleConfig : AwsConfiguration :=
  { daft_launcher_version := "0.1.0"
    setup :=
      { name := "demo"
        provider := Provider.aws
        python_version := "3.11.0"
        ray_version := "2.9.0"
        number_of_workers := 0
        dependencies := [] }
    run := { pre_setup_commands := ["A"], setup_commands := ["C"] }
    region := "us-west-2"
    ssh_user := "ec2-user"
    instance_type := "m7g.medium"
    image_id := "ami-01c3c55948a949a52"
    iam_instance_profile_arn := none }

/-- C1: a configuration whose declared tool version differs from the running
tool version makes resolution fail with the version-mismatch error, and no
manifest bundle is ever produced from such a configuration. -/
theorem version_gate_blocks_mismatched_config (launcherVersion : String)
    (config : AwsConfiguration)
    (h : config.daft_launcher_version ≠ launcherVersion) :
    build_ray_config_from_path launcherVersion config =
      Except.error
        (UsageErr.versionMismatch launcherVersion config.daft_launcher_version) ∧
    ∀ bundle, build_ray_config_from_path launcherVersion config ≠ Except.ok bundle := by
  refine ⟨?_, ?_⟩
  · simp [build_ray_config_from_path, h]
  · intro bundle
    simp [build_ray_config_from_path, h]

/-- Witness for C1 at the spec's own example: config version `0.1.0`,
tool version `0.2.0`. -/
theorem version_gate_blocks_mismatched_config_check :
    build_ray_config_from_path "0.2.0" sampleConfig =
      Except.error (UsageErr.versionMismatch "0.2.0" "0.1.0") ∧
    ∀ bundle, build_ray_config_from_path "0.2.0" sampleConfig ≠ Except.ok bundle :=
  version_gate_blocks_mismatched_config "0.2.0" sampleConfig (by decide)

/-- C2: for every valid configuration with worker count `n`, the produced
manifest has min and max worker bounds both equal to `n` (and the top-level
`max_workers` equal to `n` as well). -/
theorem worker_bounds_equal_number_of_workers (config : AwsConfiguration)
    (n : Nat) (h : config.setup.number_of_workers = n) :
    (build_ray_config config).worker_node.min_workers = n ∧
    (build_ray_config config).worker_node.max_workers = n ∧
    (build_ray_config config).max_workers = n := by
  subst h
  exact ⟨rfl, rfl, rfl⟩

/-- Witness for C2 at the edge case `n = 0`. -/
theorem worker_bounds_equal_number_of_workers_at_zero :
    (build_ray_config sampleConfig).worker_node.min_workers = 0 ∧
    (build_ray_config sampleConfig).worker_node.max_workers = 0 ∧
    (build_ray_config sampleConfig).max_workers = 0 :=
  worker_bounds_equal_number_of_workers sampleConfig 0 (by decide)

/-- C3: the manifest's bootstrap command sequence is exactly
`pre_setup_commands ++ generated installer commands ++ setup_commands`,
in that order, for every configuration. -/
theorem setup_commands_concatenation_order (config : AwsConfiguration) :
    (build_ray_config config).setup_commands =
      config.run.pre_setup_commands ++ generate_setup_commands config ++
        config.run.setup_commands :=
  rfl

/-- `helpers.Tag`: one key/value tag of an inventory record. -/
structure Tag where
  Key : String
  Value : String
deriving DecidableEq, Repr

/-- `helpers.InstanceInformation`: one cloud inventory entry.  The public
address is optional in the underlying JSON (`PublicIpAddress` is absent
until the instance is network-ready), so `ip` is an `Option`. -/
structure InstanceInformation where
  instance_id : String
  iam_role : String
  state : String
  ip : Option String
  keyname : String
  tags : List Tag
deriving DecidableEq, Repr

/-- `InstanceInformation.get_tag`: value of the first tag with the given
key, if any. -/
def InstanceInformation.get_tag (info : InstanceInformation)
    (tag_name : String) : Option String :=
  (info.tags.find? (fun tag => tag.Key == tag_name)).map Tag.Value

/-- The filter condition of the loop in `helpers._get_ip`
(`a and b and c` at lines 108-111): running state, head node-role tag,
and matching cluster-name tag. -/
def is_running_head_of (name : String) (info : InstanceInformation) : Bool :=
  (info.state == "running") &&
  (info.get_tag "ray-node-type" == some "head") &&
  (info.get_tag "ray-cluster-name" == some name)

/-- `helpers._get_ip`, with the inventory snapshot
(`_parse_describe_instances_query()`) as a parameter: returns the `ip`
field of the first record satisfying the filter, and raises the
could-not-find error when no record matches. -/
def helpers_get_ip (name : String) (instance_infos : List InstanceInformation) :
    Except UsageErr (Option String) :=
  match instance_infos.find? (is_running_head_of name) with
  | some info => Except.ok info.ip
  | none => Except.error (UsageErr.couldNotFindHeadIp name)

/-- One raw instance dict of the `__init__.get_ip` query:
`{State: ..., Tags: ..., Ip: ...}`. -/
structure EcInstance where
  state : String
  tags : List Tag
  ip : Option String
deriving DecidableEq, Repr

/-- The tag scan of `__init__.find_ip` (lines 61-68): a fold over the tags
computing the last `ray-cluster-name` value seen and whether the last
`ray-node-type` value seen equals `"head"`; an `elif` makes the two key
tests mutually exclusive per tag. -/
def scan_tags (tags : List Tag) : Option String × Bool :=
  tags.foldl
    (fun acc tag =>
      if tag.Key == "ray-cluster-name" then (some tag.Value, acc.2)
      else if tag.Key == "ray-node-type" then (acc.1, tag.Value == "head")
      else acc)
    (none, false)

/-- The per-instance condition of `__init__.find_ip` line 69:
`is_head and cluster_name == name` (comparing an optional cluster name
against the requested name). -/
def head_of_cluster (name : String) (inst : EcInstance) : Bool :=
  (scan_tags inst.tags).2 && ((scan_tags inst.tags).1 == some name)

/-- `__init__.find_ip`: scans the (nested) instance groups in order and
returns the `Ip` and `State` of the first instance whose tags mark it as
the head of the requested cluster; raises when no instance matches. -/
def find_ip (instance_groups : List (List EcInstance)) (name : String) :
    Except UsageErr (Option String × String) :=
  match instance_groups.flatten.find? (head_of_cluster name) with
  | some inst => Except.ok (inst.ip, inst.state)
  | none => Except.error (UsageErr.ipNotFound name)

/-- `__init__.get_ip`, starting after the inventory query: calls `find_ip`,
then fails when the returned state is not `running`, then fails when the
returned ip is falsy (absent, or the empty string), mirroring Python's
`if not ip`. -/
def get_ip (instance_groups : List (List EcInstance)) (name : String) :
    Except UsageErr String :=
  match find_ip instance_groups name with
  | Except.error e => Except.error e
  | Except.ok (ip, state) =>
    if state ≠ "running" then Except.error (UsageErr.clusterNotRunning name)
    else
      match ip with
      | none => Except.error (UsageErr.noPublicIp name)
      | some s =>
        if s == "" then Except.error (UsageErr.noPublicIp name) else Except.ok s

/-- First match of a predicate is the head of the filtered list. -/
theorem find?_eq_filter_head? {α : Type} (p : α → Bool) (l : List α) :
    l.find? p = (l.filter p).head? := by
  induction l with
  | nil => rfl
  | cons a l ih =>
    by_cases h : p a
    · rw [List.find?_cons_of_pos _ h, List.filter_cons_of_pos h, List.head?_cons]
    · rw [List.find?_cons_of_neg _ h, List.filter_cons_of_neg h, ih]

/-- A running head record of cluster `x` at address `10.0.0.1`. -/
def headRecordA : InstanceInformation :=
  { instance_id := "i-aaa"
    iam_role := "arn:aws:iam::1:instance-profile/p"
    state := "running"
    ip := some "10.0.0.1"
    keyname := "kp"
    tags := [⟨"ray-cluster-name", "x"⟩, ⟨"ray-node-type", "head"⟩] }

/-- A second running head record of the same cluster `x`, at `10.0.0.2`. -/
def headRecordB : InstanceInformation :=
  { instance_id := "i-bbb"
    iam_role := "arn:aws:iam::1:instance-profile/p"
    state := "running"
    ip := some "10.0.0.2"
    keyname := "kp"
    tags := [⟨"ray-cluster-name", "x"⟩, ⟨"ray-node-type", "head"⟩] }

/-- C4 counterexample: on a snapshot with two running head records of the
same cluster, head resolution does not fail with any error: it succeeds
and returns the first matching record's address. -/
theorem two_running_heads_returns_first_ip :
    (([headRecordA, headRecordB].filter (is_running_head_of "x")).length = 2) ∧
    helpers_get_ip "x" [headRecordA, headRecordB] = Except.ok (some "10.0.0.1") := by
  constructor
  · rfl
  · rfl

/-- C4 amended: whenever the snapshot holds two or more running head records
of the requested cluster, head resolution succeeds with the address of the
first matching record (in inventory order) instead of failing. -/
theorem head_resolution_first_match_semantics (name : String)
    (infos : List InstanceInformation) (i : InstanceInformation)
    (hlen : 2 ≤ (infos.filter (is_running_head_of name)).length)
    (hfirst : (infos.filter (is_running_head_of name)).head? = some i) :
    helpers_get_ip name infos = Except.ok i.ip := by
  unfold helpers_get_ip
  rw [find?_eq_filter_head? (is_running_head_of name) infos, hfirst]

/-- Witness for the amended C4 on the two-head snapshot. -/
theorem head_resolution_first_match_semantics_check :
    helpers_get_ip "x" [headRecordA, headRecordB] = Except.ok headRecordA.ip :=
  head_resolution_first_match_semantics "x" [headRecordA, headRecordB] headRecordA
    (by decide) (by decide)

/-- A running head record of cluster `x` with no public address yet. -/
def headRecordNoIp : InstanceInformation :=
  { instance_id := "i-ccc"
    iam_role := "arn:aws:iam::1:instance-profile/p"
    state := "running"
    ip := none
    keyname := "kp"
    tags := [⟨"ray-cluster-name", "x"⟩, ⟨"ray-node-type", "head"⟩] }

/-- C5 counterexample: on a snapshot whose single running head record has
no public address, `helpers._get_ip` does not fail: it succeeds and
returns the absent address. -/
theorem absent_address_returned_ok :
    (([headRecordNoIp].filter (is_running_head_of "x")).length = 1) ∧
    headRecordNoIp.ip = none ∧
    helpers_get_ip "x" [headRecordNoIp] = Except.ok none := by
  exact ⟨rfl, rfl, rfl⟩

/-- C5 amended: the `helpers._get_ip` path returns an absent address as a
successful result, but the `__init__.get_ip` path does check address
presence: when the first matching head record is running and its address
is absent, it fails with the no-public-ip error, which is distinct from
the cluster-not-running error. -/
theorem get_ip_missing_address_error (name : String) (inst : EcInstance)
    (rest : List EcInstance)
    (hmatch : head_of_cluster name inst = true)
    (hrun : inst.state = "running")
    (hip : inst.ip = none) :
    get_ip [inst :: rest] name = Except.error (UsageErr.noPublicIp name) ∧
    UsageErr.noPublicIp name ≠ UsageErr.clusterNotRunning name := by
  constructor
  · unfold get_ip find_ip
    simp [List.find?_cons, hmatch, hrun, hip]
  · intro h
    exact UsageErr.noConfusion h

/-- Witness for the amended C5 on a one-record snapshot. -/
theorem get_ip_missing_address_error_check :
    get_ip [[⟨"running",
        [⟨"ray-cluster-name", "x"⟩, ⟨"ray-node-type", "head"⟩], none⟩]] "x" =
      Except.error (UsageErr.noPublicIp "x") ∧
    UsageErr.noPublicIp "x" ≠ UsageErr.clusterNotRunning "x" :=
  get_ip_missing_address_error "x"
    ⟨"running", [⟨"ray-cluster-name", "x"⟩, ⟨"ray-node-type", "head"⟩], none⟩ []
    (by decide) (by decide) (by decide)

/-- The fields of the `subprocess.CompletedProcess` that
`helpers._run_aws_command` inspects. -/
structure CompletedProcess where
  returncode : Int
  stdout : String
  stderr : String
deriving DecidableEq, Repr

/-- Whether `pat` occurs at the start of `s` (on character lists). -/
def starts_with : List Char → List Char → Bool
  | [], _ => true
  | _ :: _, [] => false
  | p :: ps, c :: cs => (c == p) && starts_with ps cs

/-- Whether `pat` occurs anywhere in `s` (on character lists). -/
def contains_chars (s pat : List Char) : Bool :=
  match s with
  | [] => starts_with pat []
  | _ :: rest => starts_with pat s || contains_chars rest pat

/-- Python's `pat in s` substring test. -/
def contains_substr (s pat : String) : Bool :=
  contains_chars s.data pat.data

/-- `helpers._run_aws_command`, with the process outcome and the JSON
parser (`json.loads`, returning `none` on a decode error) as parameters.
A non-zero return code raises only when the expired-token signal is in
stderr; otherwise control falls through to the empty-body check and the
parse attempt. -/
def run_aws_command {J : Type} (parse : String → Option J)
    (result : CompletedProcess) : Except UsageErr J :=
  if result.returncode ≠ 0 ∧ contains_substr result.stderr "Token has expired" then
    Except.error UsageErr.credentialsExpired
  else if result.stdout == "" then
    Except.error UsageErr.emptyResponse
  else
    match parse result.stdout with
    | some v => Except.ok v
    | none => Except.error (UsageErr.malformedResponse result.stdout)

/-- A stand-in for `json.loads` that accepts exactly the body `[]`
(an empty instance-group list), as the real parser does. -/
def parses_empty_array (s : String) : Option Unit :=
  if s == "[]" then some () else none

/-- C6 counterexample: an inventory-query outcome with a non-zero exit
status (and no expired-credential signal) whose body still parses is
accepted silently — it raises no error at all, although the claim demands
a taxonomy error for every non-zero exit status. -/
theorem nonzero_exit_with_json_body_accepted :
    (CompletedProcess.returncode ⟨1, "[]", "transport failure"⟩ ≠ 0) ∧
    run_aws_command parses_empty_array ⟨1, "[]", "transport failure"⟩ =
      Except.ok () := by
  constructor
  · decide
  · rfl

/-- C6 amended: the inventory client translates an expired-credential
signal on a failed command, an empty response body, and a malformed
(non-JSON) body into the closed taxonomy; a non-zero exit status alone is
not translated — when its body still parses, the result is accepted
silently.  Errors never escape the `UsageErr` taxonomy (the codomain). -/
theorem aws_command_error_translation {J : Type} (parse : String → Option J)
    (r : CompletedProcess) :
    (r.returncode ≠ 0 → contains_substr r.stderr "Token has expired" = true →
      run_aws_command parse r = Except.error UsageErr.credentialsExpired) ∧
    (¬ (r.returncode ≠ 0 ∧ contains_substr r.stderr "Token has expired") →
      r.stdout = "" → run_aws_command parse r = Except.error UsageErr.emptyResponse) ∧
    (¬ (r.returncode ≠ 0 ∧ contains_substr r.stderr "Token has expired") →
      r.stdout ≠ "" → parse r.stdout = none →
      run_aws_command parse r = Except.error (UsageErr.malformedResponse r.stdout)) := by
  refine ⟨?_, ?_, ?_⟩
  · intro hrc htok
    simp [run_aws_command, hrc, htok]
  · intro hnot hempty
    simp [run_aws_command, hnot, hempty]
  · intro hnot hne hparse
    simp only [run_aws_command, if_neg hnot]
    rw [if_neg (by simpa using hne), hparse]

/-- Witness for the amended C6: the three translated failure modes at
concrete process outcomes. -/
theorem aws_command_error_translation_check :
    run_aws_command parses_empty_array
        ⟨255, "", "An error occurred: Token has expired"⟩ =
      Except.error UsageErr.credentialsExpired ∧
    run_aws_command parses_empty_array ⟨0, "", ""⟩ =
      Except.error UsageErr.emptyResponse ∧
    run_aws_command parses_empty_array ⟨0, "not json", ""⟩ =
      Except.error (UsageErr.malformedResponse "not json") :=
  ⟨(aws_command_error_translation parses_empty_array
      ⟨255, "", "An error occurred: Token has expired"⟩).1 (by decide) (by decide),
   (aws_command_error_translation parses_empty_array ⟨0, "", ""⟩).2.1
      (by decide) (by decide),
   (aws_command_error_translation parses_empty_array ⟨0, "not json", ""⟩).2.2
      (by decide) (by decide) (by decide)⟩

/-- The `uv_install_command` built in `configs.merge` lines 143-145: each
dependency double-quoted, the quoted dependencies joined with single
spaces, behind the fixed text `uv pip install `. -/
def uv_install_command (dependencies : List String) : String :=
  "uv pip install " ++
    String.intercalate " " (dependencies.map (fun dep => "\x22" ++ dep ++ "\x22"))

/-- The `[run]` section of the user config as `configs.merge` reads it:
either key may be absent. -/
structure RunSection where
  pre_setup_commands : Option (List String)
  setup_commands : Option (List String)
deriving DecidableEq, Repr

/-- The command-assembly phase of `configs.merge` (lines 141-153), the only
part of `merge` that touches `setup_commands`: starting from the default
ray config's `setup_commands` (the generated installer commands), appends
the `uv pip install` command whenever the `dependencies` key is present in
the setup section (`some deps`, even an empty list), then prepends
`pre_setup_commands` and appends `setup_commands` when `run` and the
respective key are present. -/
def merge_setup_commands (base_setup_commands : List String)
    (dependencies : Option (List String)) (run : Option RunSection) :
    List String :=
  let setup_commands := base_setup_commands
  let setup_commands :=
    match dependencies with
    | some deps => setup_commands ++ [uv_install_command deps]
    | none => setup_commands
  match run with
  | none => setup_commands
  | some r =>
    let setup_commands :=
      match r.pre_setup_commands with
      | some pre => pre ++ setup_commands
      | none => setup_commands
    match r.setup_commands with
    | some s => setup_commands ++ s
    | none => setup_commands

/-- C10 counterexample: a setup section carrying an empty `dependencies`
list still gets an extra command appended — the bare `uv pip install `
(trailing space, no packages) — so the command sequence is not unchanged. -/
theorem empty_dependencies_key_appends_command :
    merge_setup_commands ["G"] (some []) none = ["G", "uv pip install "] ∧
    merge_setup_commands ["G"] (some []) none ≠ ["G"] := by
  constructor
  · rfl
  · decide

/-- C10 amended: whenever the `dependencies` key is present (even with an
empty list), exactly one `uv pip install` command — each dependency
double-quoted and space-separated in list order — is inserted after the
generated installer commands and before the user's `setup_commands`; when
the key is absent the sequence is unchanged. -/
theorem dependency_install_command_position (base : List String)
    (deps : List String) (pre setup : List String) :
    merge_setup_commands base (some deps)
        (some { pre_setup_commands := some pre, setup_commands := some setup }) =
      pre ++ base ++ [uv_install_command deps] ++ setup ∧
    merge_setup_commands base none
        (some { pre_setup_commands := some pre, setup_commands := some setup }) =
      pre ++ base ++ setup ∧
    merge_setup_commands base none none = base := by
  refine ⟨?_, ?_, ?_⟩
  · simp [merge_setup_commands]
  · simp [merge_setup_commands]
  · rfl

/-- Witness for the amended C10: generated command `G`, dependencies
`d1`, `d2`, pre-setup `A`, setup `C`. -/
theorem dependency_install_command_position_check :
    merge_setup_commands ["G"] (some ["d1", "d2"])
        (some { pre_setup_commands := some ["A"], setup_commands := some ["C"] }) =
      ["A", "G", "uv pip install \x22d1\x22 \x22d2\x22", "C"] := by
  have h := (dependency_install_command_position ["G"] ["d1", "d2"] ["A"] ["C"]).1
  rw [h]
  rfl

/-- Events of the job-submission flow in `commands.submit`, in program
order: the tunnel child process is spawned, connection attempts (with
fixed 1-second sleeps between consecutive attempts) run against the
endpoint, then either the job is submitted or an exception propagates,
and the `finally` block terminates the tunnel process. -/
inductive Event where
  | tunnelOpened
  | connectAttempt (i : Nat)
  | slept
  | connFailureRaised
  | assertionRaised
  | jobSubmitted (id : String)
  | submitExceptionRaised
  | tunnelTerminated
deriving DecidableEq, Repr

/-- Outcome of the connection while-loop of `commands.submit`:
a successful break with a client, the re-raise of the last connection
exception, or the (unreachable) `assert client` after a normal loop exit. -/
inductive ConnResult where
  | connected (attemptIndex : Nat)
  | failedRaise (attemptsMade : Nat)
  | clientNone
deriving DecidableEq, Repr

/-- The connection while-loop of `commands.submit` lines 105-115, with the
outcome of each attempt given by `ok`: while `tries ≤ max_tries`, attempt
to connect; on success break; on failure increment `tries`, re-raise when
`tries ≥ max_tries`, else sleep one second and retry.  Returns the loop
outcome together with the ordered event trace. -/
def connect_loop (ok : Nat → Bool) (max_tries tries : Nat) :
    ConnResult × List Event :=
  if tries ≤ max_tries then
    if ok tries then (ConnResult.connected tries, [Event.connectAttempt tries])
    else if _h : tries + 1 ≥ max_tries then
      (ConnResult.failedRaise (tries + 1), [Event.connectAttempt tries])
    else
      let rest := connect_loop ok max_tries (tries + 1)
      (rest.1, Event.connectAttempt tries :: Event.slept :: rest.2)
  else (ConnResult.clientNone, [])
termination_by max_tries - tries
decreasing_by omega

/-- C7: with the configured bound `max_tries = 3`, if every attempt fails
the loop raises the connection failure after exactly 3 attempts, with one
fixed-delay sleep between consecutive attempts and no attempt after the
raise; if the first success comes at attempt index `k < 3`, the loop
breaks there and submission proceeds with the connected client. -/
theorem submit_retry_bound (ok : Nat → Bool) :
    ((∀ i, i < 3 → ok i = false) →
      connect_loop ok 3 0 =
        (ConnResult.failedRaise 3,
         [Event.connectAttempt 0, Event.slept, Event.connectAttempt 1,
          Event.slept, Event.connectAttempt 2])) ∧
    (∀ k, k < 3 → (∀ i, i < k → ok i = false) → ok k = true →
      (connect_loop ok 3 0).1 = ConnResult.connected k) := by
  constructor
  · intro h
    have h0 := h 0 (by omega)
    have h1 := h 1 (by omega)
    have h2 := h 2 (by omega)
    simp [connect_loop, h0, h1, h2]
  · intro k hk hbefore hok
    interval_cases k
    · simp [connect_loop, hok]
    · have h0 := hbefore 0 (by omega)
      simp [connect_loop, h0, hok]
    · have h0 := hbefore 0 (by omega)
      have h1 := hbefore 1 (by omega)
      simp [connect_loop, h0, h1, hok]

/-- Witness for C7: an endpoint that never accepts fails after exactly
three attempts; an endpoint that accepts on the second attempt connects. -/
theorem submit_retry_bound_check :
    connect_loop (fun _ => false) 3 0 =
      (ConnResult.failedRaise 3,
       [Event.connectAttempt 0, Event.slept, Event.connectAttempt 1,
        Event.slept, Event.connectAttempt 2]) ∧
    (connect_loop (fun i => i == 1) 3 0).1 = ConnResult.connected 1 :=
  ⟨(submit_retry_bound (fun _ => false)).1 (fun _ _ => rfl),
   (submit_retry_bound (fun i => i == 1)).2 1 (by omega)
     (fun i hi => by interval_cases i; rfl) rfl⟩

/-- Errors that can leave the `try` block of `commands.submit`. -/
inductive FlowErr where
  | endpointUnreachable
  | submitFailed
  | assertionFailed
deriving DecidableEq, Repr

/-- The `try` block of `commands.submit` lines 102-125: run the connection
loop (bound `max_tries = 3`); on a connected client, submit the job, whose
outcome (`client.submit_job` returning an id, or raising) is the parameter
`submit_outcome`; every failure leaves the block as a raised error. -/
def submit_body (ok : Nat → Bool) (submit_outcome : Except Unit String) :
    Except FlowErr String × List Event :=
  let conn := connect_loop ok 3 0
  match conn.1 with
  | ConnResult.connected _ =>
    match submit_outcome with
    | Except.ok id => (Except.ok id, conn.2 ++ [Event.jobSubmitted id])
    | Except.error _ =>
      (Except.error FlowErr.submitFailed, conn.2 ++ [Event.submitExceptionRaised])
  | ConnResult.failedRaise _ =>
    (Except.error FlowErr.endpointUnreachable, conn.2 ++ [Event.connFailureRaised])
  | ConnResult.clientNone =>
    (Except.error FlowErr.assertionFailed, conn.2 ++ [Event.assertionRaised])

/-- `commands.submit` lines 95-127: spawn the tunnel child process, run
the `try` block, and — in the `finally` clause — terminate the tunnel
process whatever the block's outcome was. -/
def submit_flow (ok : Nat → Bool) (submit_outcome : Except Unit String) :
    Except FlowErr String × List Event :=
  let body := submit_body ok submit_outcome
  (body.1, Event.tunnelOpened :: body.2 ++ [Event.tunnelTerminated])

/-- Whether the tunnel child process is still running after the given
event trace: spawning sets it running, termination stops it. -/
def tunnel_running_after (events : List Event) : Bool :=
  events.foldl
    (fun b e =>
      match e with
      | Event.tunnelOpened => true
      | Event.tunnelTerminated => false
      | _ => b)
    false

/-- C8: on every exit path of the job-submission flow — successful
submission, connection-retry exhaustion, or any other raised exception —
the last event of the flow's trace is the tunnel termination, and the
tunnel process is not running when the flow ends. -/
theorem tunnel_terminated_on_every_exit_path (ok : Nat → Bool)
    (submit_outcome : Except Unit String) :
    (submit_flow ok submit_outcome).2.getLast? = some Event.tunnelTerminated ∧
    tunnel_running_after (submit_flow ok submit_outcome).2 = false := by
  have key : ∀ l : List Event,
      (Event.tunnelOpened :: l ++ [Event.tunnelTerminated]).getLast? =
        some Event.tunnelTerminated ∧
      tunnel_running_after
        (Event.tunnelOpened :: l ++ [Event.tunnelTerminated]) = false := by
    intro l
    constructor
    · show ((Event.tunnelOpened :: l) ++ [Event.tunnelTerminated]).getLast? =
        some Event.tunnelTerminated
      exact List.getLast?_concat _
    · unfold tunnel_running_after
      show List.foldl
          (fun b e =>
            match e with
            | Event.tunnelOpened => true
            | Event.tunnelTerminated => false
            | _ => b)
          false ((Event.tunnelOpened :: l) ++ [Event.tunnelTerminated]) = false
      rw [List.foldl_append]
      rfl
  exact key (submit_body ok submit_outcome).2

/-- Python's `f"{ip}"` on an optional value: an absent value prints as
`None`. -/
def py_str_of_opt : Option String → String
  | some s => s
  | none => "None"

/-- `helpers._ssh_command`, with the inventory snapshot as a parameter:
resolves the head ip via `helpers._get_ip`, then builds the ssh command
line: the fixed `-L 8265:localhost:8265` dashboard forward, then for each
additional port `pf` the pair `-l pf:localhost:pf`, then the identity-file
arguments, then `user@ip`. -/
def ssh_command (config : AwsConfiguration)
    (instance_infos : List InstanceInformation) (pub_key : Option String)
    (additional_port_forwards : List Nat) : Except UsageErr (List String) :=
  match helpers_get_ip config.setup.name instance_infos with
  | Except.error e => Except.error e
  | Except.ok ip =>
    let port_forwards_args :=
      (additional_port_forwards.map
        (fun pf => ["-l", toString pf ++ ":localhost:" ++ toString pf])).flatten
    let identity_args :=
      match pub_key with
      | some k => ["-i", k]
      | none => []
    Except.ok
      (["ssh", "-N", "-L", "8265:localhost:8265"] ++ port_forwards_args ++
        identity_args ++ [config.ssh_user ++ "@" ++ py_str_of_opt ip])

/-- The sample configuration renamed to target cluster `x`. -/
def xConfig : AwsConfiguration :=
  { sampleConfig with setup := { sampleConfig.setup with name := "x" } }

/-- C9: evaluating the tunnel-opening command at a concrete head address,
auth user, identity key and one extra port shows that the extra port is
emitted behind lowercase `-l` — the ssh login-name option — rather than
the port-forward option `-L` used for the fixed dashboard port, so no
local-to-remote forward is created for caller-specified extra ports. -/
theorem ssh_command_uses_lowercase_l_for_extra_ports :
    ssh_command xConfig [headRecordA] (some "/root/.ssh/key.pem") [10000] =
      Except.ok
        ["ssh", "-N", "-L", "8265:localhost:8265",
         "-l", "10000:localhost:10000",
         "-i", "/root/.ssh/key.pem",
         "ec2-user@10.0.0.1"] := by
  rfl
